import Mathlib

/-!
Verification of the dei_rankings repository core logic against its
natural-language specification.

The repository is a small ETL pipeline: it canonicalizes ranking URLs
(`get_core_url_part`), infers (country, study, year) metadata from the
canonical part (`predict_country_study_year`), reconciles discovered URLs
against a registry (`main.py`), and cleans scraped HTML rows into structured
records (`clean_rows`).

Python strings are modelled as Lean `String`, Python dicts (the token maps)
as association lists `List (String × String)` with first-match lookup,
Python `None` / missing values as `Option`, and uncaught Python exceptions
as explicit error constructors.
-/

namespace DeiRankings

/-! ## String primitives

Python string operations are modelled on `List Char` (via `String.data`) with
structural recursion, so that every definition reduces inside the kernel.
All splits performed by the source use a single-character separator
(`'/'`, `'-'`, `'\n'`). -/

/-- Does `s` start with `pat`?  (Helper for substring containment.) -/
def startsWithChars : List Char → List Char → Bool
  | _, [] => true
  | [], _ :: _ => false
  | c :: cs, p :: ps => c == p && startsWithChars cs ps

/-- Python `pat in s`: does `pat` occur contiguously in `s`? -/
def containsChars : List Char → List Char → Bool
  | [], pat => pat.isEmpty
  | c :: cs, pat => startsWithChars (c :: cs) pat || containsChars cs pat

/-- Python `s.split(sep)` for a single-character separator. -/
def splitOnCharAux (sep : Char) : List Char → List Char → List (List Char)
  | [], acc => [acc.reverse]
  | c :: cs, acc =>
    if c == sep then acc.reverse :: splitOnCharAux sep cs []
    else splitOnCharAux sep cs (c :: acc)

/-- Python `s.split(sep)` for a single-character separator, from the start. -/
def splitOnChar (sep : Char) (s : List Char) : List (List Char) :=
  splitOnCharAux sep s []

/-- Split at the first occurrence of the character `sep`: `some (before, after)`,
or `none` when `sep` does not occur. -/
def splitFirstChar (sep : Char) : List Char → Option (List Char × List Char)
  | [] => none
  | c :: cs =>
    if c == sep then some ([], cs)
    else (splitFirstChar sep cs).map (fun p => (c :: p.1, p.2))

/-- Split at the first occurrence of the (non-empty) pattern `pat`:
`some (before, after)`, or `none` when `pat` does not occur. -/
def splitFirstSeq (pat : List Char) : List Char → Option (List Char × List Char)
  | [] => none
  | c :: cs =>
    if startsWithChars (c :: cs) pat then some ([], (c :: cs).drop pat.length)
    else (splitFirstSeq pat cs).map (fun p => (c :: p.1, p.2))

/-- Python `pat in s` on `String`. -/
def strContains (s pat : String) : Bool :=
  containsChars s.data pat.data

/-- Python `s.split(sep)` on `String`, single-character separator. -/
def pySplit (s : String) (sep : Char) : List String :=
  (splitOnChar sep s.data).map String.mk

/-- Python `s.endswith(c)` for a single character. -/
def pyEndsWithChar (s : String) (c : Char) : Bool :=
  s.data.getLast? == some c

/-- Python `s[:-1]`. -/
def pyDropLast (s : String) : String :=
  String.mk s.data.dropLast

/-- Python `int(s)` for a string of ASCII digits (the only way the source
calls it). -/
def digitsToNat (cs : List Char) : Nat :=
  cs.foldl (fun a c => a * 10 + (c.toNat - 48)) 0

/-! ## URL canonicalizer (`utils.get_core_url_part`, utils.py lines 9-43) -/

/-- Result of `get_core_url_part`.  The Python function either returns a
string, raises `ValueError` with one of two messages (no matching URL part /
more than one matching URL part), or escapes with an uncaught `IndexError`
from `parts[-1]` / `parts[-2]` on lists that are too short. -/
inductive UrlResult where
  | ok (s : String)
  | noIdentifier
  | ambiguous
  | indexError
deriving DecidableEq, Repr

/-- utils.py line 22: `parts = [part for part in url.split('/') if part != '']`. -/
def urlParts (url : String) : List String :=
  (pySplit url '/').filter (fun p => p ≠ "")

/-- utils.py line 30: a part is kept when `'best' in part or 'employers-' in part`. -/
def isMarkerPart (p : String) : Bool :=
  strContains p "best" || strContains p "employers-"

/-- utils.py lines 22-43.  Empty `parts` makes `parts[-1]` raise `IndexError`;
if the last part is `"ranking"`, `parts[-2]` is returned (raising `IndexError`
when only one part exists); otherwise the parts matching the marker rule are
scanned with a generator: zero matches raise `ValueError` (no identifier),
a second match raises `ValueError` (ambiguous), exactly one is returned. -/
def get_core_url_part (url : String) : UrlResult :=
  if urlParts url = [] then .indexError
  else if (urlParts url).getLastD "" = "ranking" then
    if (urlParts url).length < 2 then .indexError
    else .ok ((urlParts url).getD ((urlParts url).length - 2) "")
  else
    match (urlParts url).filter isMarkerPart with
    | [] => .noIdentifier
    | [m] => .ok m
    | _ :: _ :: _ => .ambiguous

/-! ## Token classifier (`utils.predict_country_study_year`, utils.py lines 45-126) -/

/-- Result of `predict_country_study_year`.  The Python function returns a
`(country, study, year)` tuple or `None`; on one path (`predicted_country`
never assigned by the country loop) it escapes with an uncaught
`UnboundLocalError` at the `logger.info('Predicted country: ...')` line. -/
inductive PredictResult where
  | prediction (country study : String) (year : Nat)
  | noneReturned
  | unboundLocal
deriving DecidableEq, Repr

/-- utils.py line 68: the fixed stopword list. -/
def exclusions : List String :=
  ["best", "beste", "employers", "arbeitgeber", "the", "feur"]

/-- utils.py lines 64-71: split the core part on `-` and drop stopwords. -/
def tokensOf (core_part : String) : List String :=
  (pySplit core_part '-').filter (fun t => !(exclusions.contains t))

/-- utils.py line 78: `len(token) == 4 and token.isdigit()` (ASCII digits). -/
def isYearToken (t : String) : Bool :=
  t.data.length == 4 && t.data.all Char.isDigit

/-- Python `int(token)` for a digit string (the only way it is called). -/
def toNatD (t : String) : Nat :=
  digitsToNat t.data

/-- utils.py lines 77-84: the year loop.  Scans tokens in order; on the first
4-digit numeric token it records `int(token)`, removes that occurrence from
the list (`tokens.remove(token)`) and breaks; if the loop completes without a
match the `for`-`else` returns `None` (modelled as `none` here). -/
def yearLoop : List String → Option (Nat × List String)
  | [] => none
  | t :: rest =>
    if isYearToken t then some (toNatD t, rest)
    else
      match yearLoop rest with
      | some (y, rest1) => some (y, t :: rest1)
      | none => none

/-- Outcome of the country loop (utils.py lines 90-102).  `done c ts` is the
loop finishing (by exhausting the iterator or by `break`), with `c` the last
value assigned to `predicted_country` (`none` when it was never assigned,
which subsequently raises `UnboundLocalError`) and `ts` the token list as
mutated by the loop.  `earlyNone` is the `return None` in the loop's `else`
branch. -/
inductive CountryScan where
  | done (country : Option String) (tokens : List String)
  | earlyNone
deriving DecidableEq, Repr

/-- utils.py lines 90-102, modelled exactly as CPython executes it: the `for`
iterator keeps an index `i` into the (mutated) list.  On an exact map hit the
matched value is recorded and `tokens.remove(token)` deletes the first
occurrence equal to the current token — with no `break`, so iteration
continues on the shifted list.  On a token ending in `'s'` whose stripped form
is in the map, the loop breaks without removing anything.  On a token ending
in `'s'` whose stripped form is not in the map, iteration continues.  On any
other token the function returns `None` immediately.  `fuel` is an upper
bound on remaining iterations; since `i` increases by one per step and the
list never grows, `fuel = tokens.length` at the initial call means fuel can
only run out when `i ≥ tokens.length`, where the loop exits anyway, so the
fuel-0 case returns the same `done` result as the exit case. -/
def countryLoopAux (cmap : List (String × String)) :
    Nat → Nat → List String → Option String → CountryScan
  | 0, _, tokens, acc => .done acc tokens
  | fuel + 1, i, tokens, acc =>
    if h : i < tokens.length then
      match cmap.lookup tokens[i] with
      | some name => countryLoopAux cmap fuel (i + 1) (tokens.erase tokens[i]) (some name)
      | none =>
        if pyEndsWithChar tokens[i] 's' then
          match cmap.lookup (pyDropLast tokens[i]) with
          | some name => .done (some name) tokens
          | none => countryLoopAux cmap fuel (i + 1) tokens acc
        else .earlyNone
    else .done acc tokens

/-- The country loop started as in the source: iterator at the head of the
current token list. -/
def countryLoop (cmap : List (String × String)) (tokens : List String) : CountryScan :=
  countryLoopAux cmap tokens.length 0 tokens none

/-- utils.py lines 107-117: if no tokens remain the study defaults to
`'best'`; otherwise the first token found in `study_map` gives the study
(the loop breaks at the first hit), and if none matches the `for`-`else`
returns `None`. -/
def studyScan (smap : List (String × String)) (tokens : List String) : Option String :=
  match tokens with
  | [] => some "best"
  | _ :: _ =>
    match tokens.find? (fun t => (smap.lookup t).isSome) with
    | some t => smap.lookup t
    | none => none

/-- utils.py lines 88-126: everything after the year has been extracted.
The final guard models Python truthiness on line 122: year `0`, an empty
country name or an empty study name make the condition false and return
`None`. -/
def afterYearPhase (cmap smap : List (String × String))
    (tokens : List String) (year : Nat) : PredictResult :=
  match countryLoop cmap tokens with
  | .earlyNone => .noneReturned
  | .done none _ => .unboundLocal
  | .done (some country) tokens2 =>
    match studyScan smap tokens2 with
    | none => .noneReturned
    | some study =>
      if year ≠ 0 ∧ country ≠ "" ∧ study ≠ "" then .prediction country study year
      else .noneReturned

/-- utils.py lines 45-126: tokenize, drop stopwords, extract the year, then
run the country and study phases. -/
def predict_country_study_year (core_part : String)
    (country_map study_map : List (String × String)) : PredictResult :=
  match yearLoop (tokensOf core_part) with
  | none => .noneReturned
  | some (year, tokens1) => afterYearPhase country_map study_map tokens1 year

/-! ## Row cleaner (`scrape.clean_rows`, scrape.py lines 133-161)

`clean_rows` builds `pd.DataFrame(rows, columns=['rank', 'company',
'employees', 'score', 'location', 'industry'])` and then decomposes the
composite text cells with `.str.extract` / `.str.split`.  The loop over rows
on lines 140-142 only *logs* rows whose cell count differs from the first
row's; it raises nothing.  The behaviour on mismatched rows therefore comes
from the pandas constructor: a list-of-lists is padded to the width of the
widest row with missing values (`NaN`, modelled as `none`), and a
`ValueError` is raised when that width differs from the six supplied column
names.  `rows[0]` on line 138 raises `IndexError` on an empty list, and
`df['employees'].str.split('\n', expand=True)[1]` raises `KeyError` when no
employees cell contains a newline (column 1 then does not exist). -/

/-- One cleaned output record.  The field order is the output column order of
scrape.py lines 160-161: `rank, company, founded, employees, score, ceo,
state, hq, industry`.  A `none` models a pandas `NaN`. -/
structure RankingRow where
  rank : Option String
  company : Option String
  founded : Option String
  employees : Option String
  score : Option String
  ceo : Option String
  state : Option String
  hq : Option String
  industry : Option String
deriving DecidableEq, Repr

/-- The ways `clean_rows` can raise instead of returning a frame. -/
inductive CleaningFailure where
  | emptyRows
  | columnCountMismatch
  | employeesKeyError
deriving DecidableEq, Repr

deriving instance DecidableEq for Except

/-- Width of the widest row (the pandas frame width for ragged input). -/
def maxWidth : List (List String) → Nat
  | [] => 0
  | r :: rest => max r.length (maxWidth rest)

/-- Pad a row to `n` cells with missing values, as the pandas constructor
does for ragged list-of-lists input. -/
def padTo (n : Nat) (r : List String) : List (Option String) :=
  r.map some ++ List.replicate (n - r.length) none

/-- Cell `i` of a padded row (`none` = missing). -/
def cellGet (pr : List (Option String)) (i : Nat) : Option String :=
  pr.getD i none

/-- scrape.py lines 148-149: `df['company'].str.extract`, pattern
`(?s)^(.*?)\n.*?Founded[^\d]*([\d]+)?`.  Operationally: the match succeeds
iff the cell contains a newline and `"Founded"` occurs after the first
newline (the lazy `(.*?)` commits to the first newline whose suffix lets the
rest match, and any later position that works makes the first one work).
Group 1 is the text before the first newline.  After the first `"Founded"`
in that suffix, `[^\d]*` greedily skips non-digits; group 2 is the following
maximal digit run, or missing when none follows. -/
def foundedExtract (cell : Option String) : Option String × Option String :=
  match cell with
  | none => (none, none)
  | some s =>
    match splitFirstChar '\n' s.data with
    | none => (none, none)
    | some (a, b) =>
      match splitFirstSeq "Founded".data b with
      | none => (none, none)
      | some (_, t) =>
        let ds := (t.dropWhile (fun c => !c.isDigit)).takeWhile Char.isDigit
        (some (String.mk a), if ds.isEmpty then none else some (String.mk ds))

/-- scrape.py lines 151-152: `df['score'].str.extract`, pattern
`(?s)^(.*?)\n.*?CEO[\n](.+)$`.  The match succeeds iff the cell contains a
newline and, after the first newline, `"CEO\n"` occurs with a non-empty
remainder (a final-position `"CEO\n"` makes the engine backtrack to the next
occurrence, i.e. the first occurrence with a non-empty tail is taken; with
`(?s)` the greedy `(.+)$` then captures everything to the end).  Group 1 is
the text before the first newline, group 2 that remainder. -/
def ceoExtract (cell : Option String) : Option String × Option String :=
  match cell with
  | none => (none, none)
  | some s =>
    match splitFirstChar '\n' s.data with
    | none => (none, none)
    | some (a, b) =>
      match splitFirstSeq "CEO\n".data b with
      | none => (none, none)
      | some (_, t) =>
        if t.isEmpty then (none, none)
        else (some (String.mk a), some (String.mk t))

/-- scrape.py lines 154-155: `df['location'].str.extract`, pattern
`(?s)^(.*?)\n.*?(?:Headquarters\n(.*?))?$`.  The optional group makes the
match succeed for every cell containing a newline: group 1 is the text
before the first newline; group 2 is the text after the first
`"Headquarters\n"` in the remaining suffix when one occurs (with one final
newline stripped, because the lazy `(.*?)` stops at the earliest position
where `$` matches, which in Python is also just before a string-final
newline), and missing otherwise. -/
def locationExtract (cell : Option String) : Option String × Option String :=
  match cell with
  | none => (none, none)
  | some s =>
    match splitFirstChar '\n' s.data with
    | none => (none, none)
    | some (a, b) =>
      match splitFirstSeq "Headquarters\n".data b with
      | none => (some (String.mk a), none)
      | some (_, t) =>
        (some (String.mk a),
         some (String.mk (if t.getLast? == some '\n' then t.dropLast else t)))

/-- scrape.py line 156: `df['industry'].str.split('\n', expand=True)[0]` —
the text before the first newline (the whole cell when it has none). -/
def industryExtract (cell : Option String) : Option String :=
  match cell with
  | none => none
  | some s => some (String.mk ((splitOnChar '\n' s.data).headD s.data))

/-- scrape.py line 157: `df['employees'].str.split('\n', expand=True)[1]` —
the second newline-separated piece of the cell, missing when the cell has
fewer than two pieces. -/
def employeesExtract (cell : Option String) : Option String :=
  match cell with
  | none => none
  | some s => ((splitOnChar '\n' s.data).map String.mk)[1]?

/-- The per-row decomposition performed by scrape.py lines 148-161 on one
padded raw row `[rank, company, employees, score, location, industry]`. -/
def cleanRow (pr : List (Option String)) : RankingRow :=
  let cf := foundedExtract (cellGet pr 1)
  let sc := ceoExtract (cellGet pr 3)
  let lh := locationExtract (cellGet pr 4)
  { rank := cellGet pr 0
    company := cf.1
    founded := cf.2
    employees := employeesExtract (cellGet pr 2)
    score := sc.1
    ceo := sc.2
    state := lh.1
    hq := lh.2
    industry := industryExtract (cellGet pr 5) }

/-- scrape.py lines 133-161.  `rows[0]` raises `IndexError` on an empty
input; the pandas constructor raises `ValueError` when the widest row does
not have exactly the six supplied columns, otherwise it pads shorter rows
with missing values; `[1]` on the expanded employees split raises `KeyError`
when no employees cell contains a newline; otherwise each (padded) row is
decomposed into one record, preserving input order, and the nine output
columns are reordered as on lines 160-161. -/
def clean_rows (rows : List (List String)) : Except CleaningFailure (List RankingRow) :=
  match rows with
  | [] => .error .emptyRows
  | _ :: _ =>
    if maxWidth rows ≠ 6 then .error .columnCountMismatch
    else if (rows.map (padTo 6)).all (fun pr =>
        match cellGet pr 2 with
        | none => true
        | some s => (splitOnChar '\n' s.data).length < 2) then
      .error .employeesKeyError
    else .ok ((rows.map (padTo 6)).map cleanRow)

/-- The company cell embeds the `"Founded"` marker as the cleaning regex
expects: a newline, then `"Founded"` in the suffix, followed (possibly after
non-digits) by at least one digit. -/
def foundedMarkerOk (s : String) : Bool :=
  match splitFirstChar '\n' s.data with
  | none => false
  | some (_, b) =>
    match splitFirstSeq "Founded".data b with
    | none => false
    | some (_, t) => t.any Char.isDigit

/-- The score cell embeds the `"CEO"` marker as the cleaning regex expects:
a newline, then `"CEO\n"` in the suffix with a non-empty remainder. -/
def ceoMarkerOk (s : String) : Bool :=
  match splitFirstChar '\n' s.data with
  | none => false
  | some (_, b) =>
    match splitFirstSeq "CEO\n".data b with
    | none => false
    | some (_, t) => !t.isEmpty

/-- The location cell embeds the `"Headquarters"` marker as the cleaning
regex expects: a newline, then `"Headquarters\n"` in the suffix. -/
def locMarkerOk (s : String) : Bool :=
  match splitFirstChar '\n' s.data with
  | none => false
  | some (_, b) => (splitFirstSeq "Headquarters\n".data b).isSome

/-- A raw row `[rank, company, employees, score, location, industry]` embeds
every structural marker the row cleaner's patterns look for. -/
def markersOk (r : List String) : Bool :=
  foundedMarkerOk (r.getD 1 "") && strContains (r.getD 2 "") "\n" &&
  ceoMarkerOk (r.getD 3 "") && locMarkerOk (r.getD 4 "")

/-- Every one of the nine output fields of a cleaned record is populated. -/
def allFieldsPresent (rec : RankingRow) : Bool :=
  rec.rank.isSome && rec.company.isSome && rec.founded.isSome &&
  rec.employees.isSome && rec.score.isSome && rec.ceo.isSome &&
  rec.state.isSome && rec.hq.isSome && rec.industry.isSome

/-! ## Dataset reconciler (`main.py` lines 66-90) -/

/-- main.py line 69: the core part of each registry URL, where an uncaught
`ValueError` or `IndexError` from `get_core_url_part` aborts the run
(modelled as `none`). -/
def corePartsOf : List String → Option (List String)
  | [] => some []
  | u :: rest =>
    match get_core_url_part u with
    | .ok c =>
      match corePartsOf rest with
      | some cs => some (c :: cs)
      | none => none
    | _ => none

/-- main.py line 72: `{link: (core_parts == get_core_url_part(link)).any()
for link in links}` — each link paired with whether its core part equals
some registry core part (element-wise series equality followed by `any`);
an uncaught exception from `get_core_url_part` aborts the run. -/
def flagLinks (regParts : List String) : List String → Option (List (String × Bool))
  | [] => some []
  | l :: rest =>
    match get_core_url_part l with
    | .ok c =>
      match flagLinks regParts rest with
      | some fl => some ((l, regParts.any (fun p => p == c)) :: fl)
      | none => none
    | _ => none

/-- main.py lines 68-75: the links whose flag is false are the new URLs
(`new_urls = {k: v for k, v in output.items() if not v}`).  The links
produced by `get_available_rankings` are already distinct — they come from
`list(set(...))` — so the dict keys coincide with the link list. -/
def findNewUrls (registryUrls links : List String) : Option (List String) :=
  match corePartsOf registryUrls with
  | none => none
  | some regParts =>
    match flagLinks regParts links with
    | none => none
    | some flagged => some ((flagged.filter (fun p => !p.2)).map (fun p => p.1))

/-- How the `for url in new_urls` loop of main.py lines 79-87 can abort: an
uncaught exception propagates out of the script.  `typeError url` is
`dict(zip(['country', 'study', 'year'], None))` raising `TypeError` when
classification returned `None` for `url`. -/
inductive MainFailure where
  | typeError (url : String)
  | unboundLocalError (url : String)
  | noIdentifierValueError (url : String)
  | ambiguousValueError (url : String)
  | urlIndexError (url : String)
deriving DecidableEq, Repr

/-- main.py lines 79-87: for each new URL, compute the core part, classify
it, and build `data_dict` (country, study, year, url) for
`add_new_dataset`.  There is no check on `result`: when
`predict_country_study_year` returns `None`, `dict(zip([...], result))`
raises `TypeError` and the run aborts; an `UnboundLocalError` escaping the
classifier aborts likewise.  Rows appended to the registry before the abort
are not modelled — the error value records only where processing stopped. -/
def processNewUrls (cmap smap : List (String × String)) :
    List String → Except MainFailure (List (String × String × String × Nat))
  | [] => .ok []
  | url :: rest =>
    match get_core_url_part url with
    | .ok core =>
      match predict_country_study_year core cmap smap with
      | .prediction c s y =>
        match processNewUrls cmap smap rest with
        | .ok entries => .ok ((url, c, s, y) :: entries)
        | .error e => .error e
      | .noneReturned => .error (.typeError url)
      | .unboundLocal => .error (.unboundLocalError url)
    | .noIdentifier => .error (.noIdentifierValueError url)
    | .ambiguous => .error (.ambiguousValueError url)
    | .indexError => .error (.urlIndexError url)

/-! ## Helper lemmas -/

/-- The year loop equals: find the first 4-digit token, convert it, and
remove that occurrence (`tokens.remove`) from the list. -/
theorem yearLoop_eq_find (ts : List String) :
    yearLoop ts = (ts.find? isYearToken).map (fun t => (toNatD t, ts.erase t)) := by
  induction ts with
  | nil => rfl
  | cons t rest ih =>
    by_cases hy : isYearToken t
    · simp [yearLoop, List.find?_cons, hy]
    · have hyf : isYearToken t = false := by simpa using hy
      cases hfind : rest.find? isYearToken with
      | none =>
        simp [yearLoop, hyf, ih, hfind, List.find?_cons]
      | some y =>
        have hyy : isYearToken y = true := List.find?_some hfind
        have hne : t ≠ y := by
          intro hEq
          rw [hEq, hyy] at hyf
          exact Bool.noConfusion hyf
        simp [yearLoop, hyf, ih, hfind, List.find?_cons, List.erase_cons, hne]

/-- A list whose `any` for a predicate holds has, after dropping the leading
non-matches, a non-empty maximal matching segment at the front. -/
theorem takeWhile_dropWhile_ne_nil {p : Char → Bool} {l : List Char}
    (h : l.any p = true) : (l.dropWhile (fun c => !p c)).takeWhile p ≠ [] := by
  induction l with
  | nil => simp at h
  | cons c cs ih =>
    by_cases hc : p c
    · simp [List.dropWhile_cons, hc, List.takeWhile_cons]
    · have hcf : p c = false := by simpa using hc
      have hcs : cs.any p = true := by simpa [List.any_cons, hcf] using h
      simpa [List.dropWhile_cons, hcf] using ih hcs

/-- `containsChars` for a single-character pattern is `any`. -/
theorem containsChars_singleton (cs : List Char) (x : Char) :
    containsChars cs [x] = cs.any (fun c => c == x) := by
  induction cs with
  | nil => rfl
  | cons c cs ih => simp [containsChars, startsWithChars, ih, List.any_cons]

/-- Splitting never produces an empty list of pieces. -/
theorem splitOnCharAux_length_pos (sep : Char) (cs : List Char) :
    ∀ acc, 1 ≤ (splitOnCharAux sep cs acc).length := by
  induction cs with
  | nil => intro acc; simp [splitOnCharAux]
  | cons c cs ih =>
    intro acc
    by_cases hc : (c == sep) = true
    · simp [splitOnCharAux, hc]
    · have hcf : (c == sep) = false := by simpa using hc
      simpa [splitOnCharAux, hcf] using ih (c :: acc)

/-- Splitting yields at least two pieces exactly when the separator occurs. -/
theorem splitOnCharAux_length_ge_two (sep : Char) (cs : List Char) :
    ∀ acc, (2 ≤ (splitOnCharAux sep cs acc).length ↔ cs.any (fun c => c == sep) = true) := by
  induction cs with
  | nil => intro acc; simp [splitOnCharAux]
  | cons c cs ih =>
    intro acc
    by_cases hc : (c == sep) = true
    · have := splitOnCharAux_length_pos sep cs []
      simp [splitOnCharAux, hc, List.any_cons]
      omega
    · have hcf : (c == sep) = false := by simpa using hc
      simpa [splitOnCharAux, hcf, List.any_cons] using ih (c :: acc)

/-- A cell contains a newline exactly when splitting it on newlines yields
at least two pieces. -/
theorem strContains_newline_iff (s : String) :
    strContains s "\n" = true ↔ 2 ≤ (splitOnChar '\n' s.data).length := by
  rw [strContains, show ("\n".data) = ['\n'] from rfl, containsChars_singleton, splitOnChar]
  exact (splitOnCharAux_length_ge_two '\n' s.data []).symm

/-- `all` is false as soon as one member fails the predicate. -/
theorem all_false_of_mem {α : Type} (p : α → Bool) {l : List α} {x : α}
    (hx : x ∈ l) (hp : p x = false) : l.all p = false := by
  rw [List.all_eq_false]
  exact ⟨x, hx, by simp [hp]⟩

/-- Reading a cell that lies inside the un-padded prefix of a padded row. -/
theorem cellGet_append_map_some (r : List String) (rest : List (Option String))
    (i : Nat) (h : i < r.length) :
    cellGet (r.map some ++ rest) i = some (r.getD i "") := by
  have hm : i < (r.map some).length := by simpa using h
  rw [cellGet, List.getD_eq_getElem?_getD, List.getElem?_append_left hm,
    List.getElem?_map, List.getElem?_eq_getElem h, List.getD_eq_getElem?_getD,
    List.getElem?_eq_getElem h]
  rfl

/-- Reading a cell of a row converted to options. -/
theorem cellGet_map_some (r : List String) (i : Nat) (h : i < r.length) :
    cellGet (r.map some) i = some (r.getD i "") := by
  have := cellGet_append_map_some r [] i h
  simpa using this

/-- A padded row of a row that is long enough reads the original cell. -/
theorem cellGet_padTo (r : List String) (n i : Nat) (h : i < r.length) :
    cellGet (padTo n r) i = some (r.getD i "") :=
  cellGet_append_map_some r _ i h

/-- Padding a row that already has the target width is just the conversion
to options. -/
theorem padTo_self (r : List String) (h : r.length = 6) :
    padTo 6 r = r.map some := by
  simp [padTo, h]

/-- All rows of width six give frame width six. -/
theorem maxWidth_const {rows : List (List String)} (h0 : rows ≠ [])
    (h6 : ∀ r ∈ rows, r.length = 6) : maxWidth rows = 6 := by
  induction rows with
  | nil => exact absurd rfl h0
  | cons r rest ih =>
    rw [maxWidth]
    rw [h6 r (List.mem_cons_self r rest)]
    cases rest with
    | nil => simp [maxWidth]
    | cons r1 rest1 =>
      rw [ih (by simp) (fun x hx => h6 x (List.mem_cons_of_mem r hx))]
      simp

/-! ## Claim theorems -/

/-- C6: for every URL whose `/`-split path, after discarding empty segments,
has at least two segments and ends with the segment `"ranking"`,
`get_core_url_part` returns the segment immediately preceding `"ranking"`
(the second-to-last non-empty segment). -/
theorem C6_ranking_url_second_to_last (url : String)
    (h2 : 2 ≤ (urlParts url).length)
    (hlast : (urlParts url).getLastD "" = "ranking") :
    get_core_url_part url = .ok ((urlParts url).getD ((urlParts url).length - 2) "") := by
  have hne : urlParts url ≠ [] := by
    intro h
    rw [h] at h2
    simp at h2
  unfold get_core_url_part
  rw [if_neg hne, if_pos hlast, if_neg (by omega)]

/-- C6 witness: a concrete ranking URL. -/
theorem C6_witness :
    get_core_url_part "http://r.statista.com/best-employers-usa-2023/ranking/" =
      .ok "best-employers-usa-2023" :=
  (C6_ranking_url_second_to_last "http://r.statista.com/best-employers-usa-2023/ranking/"
    (by decide) (by decide)).trans (by decide)

/-- C7: for every URL whose last non-empty path segment is not `"ranking"`:
zero marker matches (`"best"` or `"employers-"` as substring) fail with the
no-identifier error, two or more matches fail with the ambiguity error, and
exactly one match is returned. -/
theorem C7_marker_scan (url : String)
    (hne : urlParts url ≠ []) (hlast : (urlParts url).getLastD "" ≠ "ranking") :
    ((urlParts url).filter isMarkerPart = [] → get_core_url_part url = .noIdentifier) ∧
    (∀ m, (urlParts url).filter isMarkerPart = [m] → get_core_url_part url = .ok m) ∧
    (∀ m1 m2 ms, (urlParts url).filter isMarkerPart = m1 :: m2 :: ms →
      get_core_url_part url = .ambiguous) := by
  refine ⟨?_, ?_, ?_⟩
  · intro h
    unfold get_core_url_part
    rw [if_neg hne, if_neg hlast, h]
  · intro m h
    unfold get_core_url_part
    rw [if_neg hne, if_neg hlast, h]
  · intro m1 m2 ms h
    unfold get_core_url_part
    rw [if_neg hne, if_neg hlast, h]

/-- C7 witness: a URL with no marker segment, one with exactly one, and the
spec's two-marker example. -/
theorem C7_witness :
    get_core_url_part "http://example.com/data/" = .noIdentifier ∧
    get_core_url_part "http://r.statista.com/best-employers-singapore-2022/" =
      .ok "best-employers-singapore-2022" ∧
    get_core_url_part "http://x.com/best-employers-x/employers-y/" = .ambiguous :=
  ⟨(C7_marker_scan "http://example.com/data/" (by decide) (by decide)).1 (by decide),
   (C7_marker_scan "http://r.statista.com/best-employers-singapore-2022/"
      (by decide) (by decide)).2.1 "best-employers-singapore-2022" (by decide),
   (C7_marker_scan "http://x.com/best-employers-x/employers-y/"
      (by decide) (by decide)).2.2 "best-employers-x" "employers-y" [] (by decide)⟩

/-- C10: `get_core_url_part` is partial at its interface: with no non-empty
segment (`parts[-1]`), or with `"ranking"` as the only segment
(`parts[-2]`), it raises an uncaught `IndexError` rather than one of the
`ValueError` failure kinds. -/
theorem C10_short_paths_index_error (url : String) :
    (urlParts url = [] → get_core_url_part url = .indexError) ∧
    (urlParts url = ["ranking"] → get_core_url_part url = .indexError) := by
  constructor
  · intro h
    unfold get_core_url_part
    rw [h]
    decide
  · intro h
    unfold get_core_url_part
    rw [h]
    decide

/-- C10 witness: the empty URL and a URL whose only segment is "ranking". -/
theorem C10_witness :
    get_core_url_part "" = .indexError ∧ get_core_url_part "/ranking/" = .indexError :=
  ⟨(C10_short_paths_index_error "").1 (by decide),
   (C10_short_paths_index_error "/ranking/").2 (by decide)⟩

/-- C8: after stopword removal the year is the first token (in token order)
that is a 4-digit numeric string; that occurrence is removed from the token
list before the country and study phases run (so it cannot be matched again
there); when no such token exists the classifier returns its failure value. -/
theorem C8_year_first_token (core_part : String) (cmap smap : List (String × String)) :
    ((tokensOf core_part).find? isYearToken = none →
      predict_country_study_year core_part cmap smap = .noneReturned) ∧
    (∀ y, (tokensOf core_part).find? isYearToken = some y →
      predict_country_study_year core_part cmap smap =
        afterYearPhase cmap smap ((tokensOf core_part).erase y) (toNatD y)) := by
  constructor
  · intro h
    unfold predict_country_study_year
    rw [yearLoop_eq_find, h]
    rfl
  · intro y h
    unfold predict_country_study_year
    rw [yearLoop_eq_find, h]
    rfl

/-- C8 witness: a core part with no 4-digit token fails; on
`best-employers-usa-2023` the year loop hands `2023` and the token list with
that occurrence removed to the remaining phases. -/
theorem C8_witness :
    predict_country_study_year "best-employers-usa" [("usa", "United States")] [] =
      .noneReturned ∧
    predict_country_study_year "best-employers-usa-2023" [("usa", "United States")] [] =
      afterYearPhase [("usa", "United States")] []
        ((tokensOf "best-employers-usa-2023").erase "2023") (toNatD "2023") :=
  ⟨(C8_year_first_token "best-employers-usa" [("usa", "United States")] []).1 (by decide),
   (C8_year_first_token "best-employers-usa-2023" [("usa", "United States")] []).2
      "2023" (by decide)⟩

/-- C1: the claim asserts order-independence, but the country scan of
`predict_country_study_year` returns `None` as soon as it meets a token that
neither matches `country_map` nor ends in `'s'`.  On the core part
`tech-usa-2023` — exactly one 4-digit token, the exactly-mapped country
token `usa`, and the study-mapped token `tech` — the code returns `None`
instead of the claimed complete triple, because `tech` is scanned before
`usa`. -/
theorem C1_order_sensitive_failure :
    predict_country_study_year "tech-usa-2023"
      [("usa", "United States")] [("tech", "Technology")] = .noneReturned := by
  decide

/-- C2: the reconciliation loop of main.py uses the classification result
without a `None` check, so the first URL on which classification fails makes
`dict(zip(['country', 'study', 'year'], None))` raise `TypeError` and the
whole run abort: the failing URL is not skipped, and a later URL that would
classify fine is never processed. -/
theorem C2_classification_failure_aborts_run :
    processNewUrls [("usa", "United States")] []
      ["http://r.statista.com/best-employers-foobar/",
       "http://r.statista.com/best-employers-usa-2023/"] =
      .error (.typeError "http://r.statista.com/best-employers-foobar/") := by
  decide

/-- C4 counterexample: a missing year (`foo`), a missing country
(`2023-foo`) and a missing study (`usa-2023-xyz`) all return the very same
value `None` — the return value alone cannot tell the caller which field
failed, contrary to the claim. -/
theorem C4_counterexample :
    predict_country_study_year "foo" [] [] = .noneReturned ∧
    predict_country_study_year "2023-foo" [] [] = .noneReturned ∧
    predict_country_study_year "usa-2023-xyz" [("usa", "United States")] [] =
      .noneReturned := by
  decide

/-- C4 amended: all returning failure paths of the classifier produce the
single value `None`; in particular a no-year failure and a no-country
failure have identical return values, so the failed field is only
distinguished in the log, not in the returned value. -/
theorem C4_failures_indistinguishable (core1 core2 y t : String)
    (cmap1 smap1 cmap2 smap2 : List (String × String))
    (h1 : (tokensOf core1).find? isYearToken = none)
    (h2 : tokensOf core2 = [y, t])
    (hy : isYearToken y = true)
    (ht1 : cmap2.lookup t = none)
    (ht2 : pyEndsWithChar t 's' = false) :
    predict_country_study_year core1 cmap1 smap1 = .noneReturned ∧
    predict_country_study_year core2 cmap2 smap2 = .noneReturned ∧
    predict_country_study_year core1 cmap1 smap1 =
      predict_country_study_year core2 cmap2 smap2 := by
  have p1 : predict_country_study_year core1 cmap1 smap1 = .noneReturned := by
    unfold predict_country_study_year
    rw [yearLoop_eq_find, h1]
    rfl
  have p2 : predict_country_study_year core2 cmap2 smap2 = .noneReturned := by
    unfold predict_country_study_year
    rw [h2]
    rw [show yearLoop [y, t] = some (toNatD y, [t]) from by simp [yearLoop, hy]]
    have hc : countryLoop cmap2 [t] = .earlyNone := by
      unfold countryLoop
      simp [countryLoopAux, ht1, ht2]
    show afterYearPhase cmap2 smap2 [t] (toNatD y) = .noneReturned
    unfold afterYearPhase
    rw [hc]
  exact ⟨p1, p2, p1.trans p2.symm⟩

/-- C4 amended witness: concrete no-year and no-country inputs with equal
results. -/
theorem C4_amended_witness :
    predict_country_study_year "foo" [] [] = .noneReturned ∧
    predict_country_study_year "2023-foo" [] [] = .noneReturned ∧
    predict_country_study_year "foo" [] [] = predict_country_study_year "2023-foo" [] [] :=
  C4_failures_indistinguishable "foo" "2023-foo" "2023" "foo" [] [] [] []
    (by decide) (by decide) (by decide) (by decide) (by decide)

/-- A company cell with the `Founded` marker yields both groups. -/
theorem foundedExtract_present {s : String} (h : foundedMarkerOk s = true) :
    (foundedExtract (some s)).1.isSome = true ∧ (foundedExtract (some s)).2.isSome = true := by
  rw [foundedMarkerOk] at h
  cases h1 : splitFirstChar '\n' s.data with
  | none => simp [h1] at h
  | some ab =>
    obtain ⟨a, b⟩ := ab
    simp only [h1] at h
    cases h2 : splitFirstSeq "Founded".data b with
    | none => simp [h2] at h
    | some pt =>
      obtain ⟨p, t⟩ := pt
      simp only [h2] at h
      have hds := takeWhile_dropWhile_ne_nil h
      cases h3 : (t.dropWhile (fun c => !c.isDigit)).takeWhile Char.isDigit with
      | nil => exact absurd h3 hds
      | cons d ds => simp [foundedExtract, h1, h2, h3]

/-- A score cell with the `CEO` marker yields both groups. -/
theorem ceoExtract_present {s : String} (h : ceoMarkerOk s = true) :
    (ceoExtract (some s)).1.isSome = true ∧ (ceoExtract (some s)).2.isSome = true := by
  rw [ceoMarkerOk] at h
  cases h1 : splitFirstChar '\n' s.data with
  | none => simp [h1] at h
  | some ab =>
    obtain ⟨a, b⟩ := ab
    simp only [h1] at h
    cases h2 : splitFirstSeq "CEO\n".data b with
    | none => simp [h2] at h
    | some pt =>
      obtain ⟨p, t⟩ := pt
      simp only [h2, Bool.not_eq_true'] at h
      simp [ceoExtract, h1, h2, h]

/-- A location cell with the `Headquarters` marker yields both groups. -/
theorem locationExtract_present {s : String} (h : locMarkerOk s = true) :
    (locationExtract (some s)).1.isSome = true ∧ (locationExtract (some s)).2.isSome = true := by
  rw [locMarkerOk] at h
  cases h1 : splitFirstChar '\n' s.data with
  | none => simp [h1] at h
  | some ab =>
    obtain ⟨a, b⟩ := ab
    simp only [h1] at h
    cases h2 : splitFirstSeq "Headquarters\n".data b with
    | none => simp [h2] at h
    | some pt =>
      obtain ⟨p, t⟩ := pt
      simp [locationExtract, h1, h2]

/-- An employees cell containing a newline yields its second piece. -/
theorem employeesExtract_present {s : String} (h : strContains s "\n" = true) :
    (employeesExtract (some s)).isSome = true := by
  have h2 := (strContains_newline_iff s).mp h
  have hlt : 1 < ((splitOnChar '\n' s.data).map String.mk).length := by
    rw [List.length_map]
    omega
  simp [employeesExtract, List.getElem?_eq_getElem hlt]

/-- C9: for every non-empty row list with consistent six-cell rows whose
composite cells embed the expected markers, `clean_rows` succeeds and
produces exactly one structured record per input row, in input order — each
record being the marker-based decomposition of its row into the nine output
columns `rank, company, founded, employees, score, ceo, state, hq, industry`
(the field order of `RankingRow`) — and every one of the nine fields is
populated. -/
theorem C9_clean_rows_per_row (rows : List (List String)) (h0 : rows ≠ [])
    (h6 : ∀ r ∈ rows, r.length = 6) (hm : ∀ r ∈ rows, markersOk r = true) :
    clean_rows rows = .ok (rows.map (fun r => cleanRow (r.map some))) ∧
    ∀ r ∈ rows, allFieldsPresent (cleanRow (r.map some)) = true := by
  have hmw : maxWidth rows = 6 := maxWidth_const h0 h6
  have hpad : rows.map (padTo 6) = rows.map (fun r => r.map some) := by
    apply List.map_congr_left
    intro r hr
    exact padTo_self r (h6 r hr)
  have hfields : ∀ r ∈ rows, allFieldsPresent (cleanRow (r.map some)) = true := by
    intro r hr
    have h6r := h6 r hr
    have hmr := hm r hr
    rw [markersOk, Bool.and_eq_true, Bool.and_eq_true, Bool.and_eq_true] at hmr
    obtain ⟨⟨⟨hf, he⟩, hc⟩, hl⟩ := hmr
    have c0 : cellGet (r.map some) 0 = some (r.getD 0 "") := cellGet_map_some r 0 (by omega)
    have c1 : cellGet (r.map some) 1 = some (r.getD 1 "") := cellGet_map_some r 1 (by omega)
    have c2 : cellGet (r.map some) 2 = some (r.getD 2 "") := cellGet_map_some r 2 (by omega)
    have c3 : cellGet (r.map some) 3 = some (r.getD 3 "") := cellGet_map_some r 3 (by omega)
    have c4 : cellGet (r.map some) 4 = some (r.getD 4 "") := cellGet_map_some r 4 (by omega)
    have c5 : cellGet (r.map some) 5 = some (r.getD 5 "") := cellGet_map_some r 5 (by omega)
    have hfp := foundedExtract_present hf
    have hcp := ceoExtract_present hc
    have hlp := locationExtract_present hl
    have hep := employeesExtract_present he
    rw [allFieldsPresent, cleanRow]
    simp only [c0, c1, c2, c3, c4, c5]
    simp only [List.getD_eq_getElem?_getD] at hfp hcp hlp hep
    simp [hfp.1, hfp.2, hcp.1, hcp.2, hlp.1, hlp.2, hep, industryExtract]
  refine ⟨?_, hfields⟩
  obtain ⟨r0, rest, rfl⟩ : ∃ a l, rows = a :: l := by
    cases rows with
    | nil => exact absurd rfl h0
    | cons a l => exact ⟨a, l, rfl⟩
  have he0 : strContains (r0.getD 2 "") "\n" = true := by
    have hmr := hm r0 (List.mem_cons_self r0 rest)
    rw [markersOk, Bool.and_eq_true, Bool.and_eq_true, Bool.and_eq_true] at hmr
    exact hmr.1.1.2
  have hall : ((r0 :: rest).map (fun r => r.map some)).all
      (fun pr => match cellGet pr 2 with
        | none => true
        | some s => (splitOnChar '\n' s.data).length < 2) = false := by
    apply all_false_of_mem _ (List.mem_map_of_mem _ (List.mem_cons_self r0 rest))
    rw [cellGet_map_some r0 2
      (by rw [h6 r0 (List.mem_cons_self r0 rest)]; omega)]
    show decide ((splitOnChar '\n' (r0.getD 2 "").data).length < 2) = false
    have hlen := (strContains_newline_iff _).mp he0
    simp only [decide_eq_false_iff_not, Nat.not_lt]
    omega
  simp only [clean_rows]
  rw [if_neg (by simp [hmw]), hpad, if_neg (by rw [hall]; simp)]
  rw [List.map_map]
  simp [Function.comp]

/-- C9 witness: a three-row fixture with all markers embedded; in
particular the company cell `"Acme Corp\nFounded 1990"` decomposes into
company `Acme Corp` and founded `1990` (checked separately below). -/
theorem C9_witness :
    clean_rows
      [["1", "Acme Corp\nFounded 1990", "Employees\n5,000", "95.2\nCEO\nJane Doe",
        "California\nHeadquarters\nLos Angeles", "Tech\nSector"],
       ["2", "Beta LLC\nFounded 1984", "Employees\n300", "90.1\nCEO\nSam Lee",
        "Texas\nHeadquarters\nAustin", "Retail\nSector"],
       ["3", "Gamma Inc\nFounded 2001", "Employees\n12,000", "88.5\nCEO\nKim Park",
        "Ohio\nHeadquarters\nColumbus", "Energy\nSector"]] =
      .ok ([["1", "Acme Corp\nFounded 1990", "Employees\n5,000", "95.2\nCEO\nJane Doe",
        "California\nHeadquarters\nLos Angeles", "Tech\nSector"],
       ["2", "Beta LLC\nFounded 1984", "Employees\n300", "90.1\nCEO\nSam Lee",
        "Texas\nHeadquarters\nAustin", "Retail\nSector"],
       ["3", "Gamma Inc\nFounded 2001", "Employees\n12,000", "88.5\nCEO\nKim Park",
        "Ohio\nHeadquarters\nColumbus", "Energy\nSector"]].map
          (fun r => cleanRow (r.map some))) ∧
    ∀ r ∈ [["1", "Acme Corp\nFounded 1990", "Employees\n5,000", "95.2\nCEO\nJane Doe",
        "California\nHeadquarters\nLos Angeles", "Tech\nSector"],
       ["2", "Beta LLC\nFounded 1984", "Employees\n300", "90.1\nCEO\nSam Lee",
        "Texas\nHeadquarters\nAustin", "Retail\nSector"],
       ["3", "Gamma Inc\nFounded 2001", "Employees\n12,000", "88.5\nCEO\nKim Park",
        "Ohio\nHeadquarters\nColumbus", "Energy\nSector"]],
      allFieldsPresent (cleanRow (r.map some)) = true :=
  C9_clean_rows_per_row _ (by decide) (by decide) (by decide)

/-- The spec's concrete marker-splitting example: a company cell consisting
of `Acme Corp`, a newline, and `Founded 1990` yields company `Acme Corp`
and founded `1990`. -/
theorem cleanRow_acme_example :
    (cleanRow (["1", "Acme Corp\nFounded 1990", "Employees\n5,000", "95.2\nCEO\nJane Doe",
        "California\nHeadquarters\nLos Angeles", "Tech\nSector"].map some)).company =
      some "Acme Corp" ∧
    (cleanRow (["1", "Acme Corp\nFounded 1990", "Employees\n5,000", "95.2\nCEO\nJane Doe",
        "California\nHeadquarters\nLos Angeles", "Tech\nSector"].map some)).founded =
      some "1990" := by
  decide

/-- C3 counterexample: a fixture whose second row has five cells while the
first has six (a row-shape mismatch).  `clean_rows` does not fail: it
returns records, silently padding the short row's missing industry cell
with a missing value — contradicting the claim that it fails with a
row-shape error and never pads. -/
theorem C3_counterexample :
    clean_rows
      [["1", "Acme Corp\nFounded 1990", "Employees\n5,000", "95.2\nCEO\nJane Doe",
        "California\nHeadquarters\nLos Angeles", "Tech\nSector"],
       ["2", "Beta LLC\nFounded 1984", "Employees\n300", "90.1\nCEO\nSam Lee",
        "Texas\nHeadquarters\nAustin"]] =
      .ok [⟨some "1", some "Acme Corp", some "1990", some "5,000", some "95.2",
            some "Jane Doe", some "California", some "Los Angeles", some "Tech"⟩,
           ⟨some "2", some "Beta LLC", some "1984", some "300", some "90.1",
            some "Sam Lee", some "Texas", some "Austin", none⟩] := by
  decide

/-- C3 amended: `clean_rows` raises only the pandas constructor's untyped
column-count error, and only when the widest row does not have exactly six
cells; a row shorter than a widest six-cell row is silently padded with
missing values and still produces an output record. -/
theorem C3_shape_mismatch_behavior (rows : List (List String)) (h0 : rows ≠ []) :
    (maxWidth rows ≠ 6 → clean_rows rows = .error .columnCountMismatch) ∧
    (maxWidth rows = 6 →
      (∃ r ∈ rows, 3 ≤ r.length ∧ strContains (r.getD 2 "") "\n" = true) →
      clean_rows rows = .ok (rows.map (fun r => cleanRow (padTo 6 r)))) := by
  obtain ⟨r0, rest, rfl⟩ : ∃ a l, rows = a :: l := by
    cases rows with
    | nil => exact absurd rfl h0
    | cons a l => exact ⟨a, l, rfl⟩
  constructor
  · intro hw
    simp only [clean_rows]
    rw [if_pos hw]
  · rintro hw ⟨r, hr, hlen, hnl⟩
    have hall : ((r0 :: rest).map (padTo 6)).all
        (fun pr => match cellGet pr 2 with
          | none => true
          | some s => (splitOnChar '\n' s.data).length < 2) = false := by
      apply all_false_of_mem _ (List.mem_map_of_mem _ hr)
      rw [cellGet_padTo r 6 2 (by omega)]
      show decide ((splitOnChar '\n' (r.getD 2 "").data).length < 2) = false
      have hlen2 := (strContains_newline_iff _).mp hnl
      simp only [decide_eq_false_iff_not, Nat.not_lt]
      omega
    simp only [clean_rows]
    rw [if_neg (by simp [hw]), if_neg (by rw [hall]; simp)]
    rw [List.map_map]
    simp [Function.comp]

/-- C3 amended witness: the short-row fixture is padded and cleaned, while a
seven-cell row makes the constructor raise. -/
theorem C3_amended_witness :
    clean_rows
      [["1", "Acme Corp\nFounded 1990", "Employees\n5,000", "95.2\nCEO\nJane Doe",
        "California\nHeadquarters\nLos Angeles", "Tech\nSector"],
       ["2", "Beta LLC\nFounded 1984", "Employees\n300", "90.1\nCEO\nSam Lee",
        "Texas\nHeadquarters\nAustin"]] =
      .ok ([["1", "Acme Corp\nFounded 1990", "Employees\n5,000", "95.2\nCEO\nJane Doe",
        "California\nHeadquarters\nLos Angeles", "Tech\nSector"],
       ["2", "Beta LLC\nFounded 1984", "Employees\n300", "90.1\nCEO\nSam Lee",
        "Texas\nHeadquarters\nAustin"]].map (fun r => cleanRow (padTo 6 r))) ∧
    clean_rows [["1", "a", "b", "c", "d", "e", "f"]] = .error .columnCountMismatch := by
  constructor
  · exact (C3_shape_mismatch_behavior _ (by decide)).2 (by decide)
      ⟨["1", "Acme Corp\nFounded 1990", "Employees\n5,000", "95.2\nCEO\nJane Doe",
        "California\nHeadquarters\nLos Angeles", "Tech\nSector"],
       List.mem_cons_self _ _, by decide, by decide⟩
  · exact (C3_shape_mismatch_behavior _ (by decide)).1 (by decide)

/-- C5: a discovered URL is classified as not new exactly when its core part
equals the core part of some known registry entry's URL. -/
theorem C5_core_part_reconciliation (regs ps : List String) (l c : String)
    (hr : corePartsOf regs = some ps) (hl : get_core_url_part l = .ok c) :
    findNewUrls regs [l] = some (if ps.any (fun p => p == c) then [] else [l]) ∧
    ((∃ p ∈ ps, p = c) ↔ ps.any (fun p => p == c) = true) := by
  constructor
  · simp only [findNewUrls, hr]
    simp only [flagLinks, hl]
    cases hany : ps.any (fun p => p == c) with
    | true => simp [List.filter, hany]
    | false => simp [List.filter, hany]
  · constructor
    · rintro ⟨p, hp, rfl⟩
      exact List.any_eq_true.mpr ⟨p, hp, by simp⟩
    · intro h
      obtain ⟨p, hp, hpc⟩ := List.any_eq_true.mp h
      exact ⟨p, hp, by simpa using hpc⟩

/-- C5 witness: a registry whose entry has core part
`best-employers-usa-2023`; a discovered URL with the same core part yields
an empty new set, one with a distinct core part is returned as new. -/
theorem C5_witness :
    findNewUrls ["http://r.statista.com/best-employers-usa-2023/ranking/"]
      ["https://r.statista.com/de/best-employers-usa-2023/"] = some [] ∧
    findNewUrls ["http://r.statista.com/best-employers-usa-2023/ranking/"]
      ["http://r.statista.com/best-employers-canada-2024/"] =
      some ["http://r.statista.com/best-employers-canada-2024/"] :=
  ⟨((C5_core_part_reconciliation ["http://r.statista.com/best-employers-usa-2023/ranking/"]
      ["best-employers-usa-2023"] "https://r.statista.com/de/best-employers-usa-2023/"
      "best-employers-usa-2023" (by decide) (by decide)).1).trans (by decide),
   ((C5_core_part_reconciliation ["http://r.statista.com/best-employers-usa-2023/ranking/"]
      ["best-employers-usa-2023"] "http://r.statista.com/best-employers-canada-2024/"
      "best-employers-canada-2024" (by decide) (by decide)).1).trans (by decide)⟩

end DeiRankings
